import Mathlib

/-!
Verification of the feedstock-matching engine of the biochar recommendation
repository (`src/analyzers/biochar_recommender.py` and
`src/analyzers/pyrolysis_integrator.py`).

Modelling conventions, stated once:
* Python floats are modelled as rationals (`ℚ`); every threshold and every
  literal the engine compares against is decimal, hence exactly representable,
  and the order on the modelled values coincides with the IEEE order.  A cell
  holding `NaN` (or a missing cell) is `Option.none`; pandas comparisons with
  `NaN` are false, which the `optLtB`/`optGtB` helpers reproduce.
* A pandas `DataFrame` is a list of rows plus its list of column names.  A row
  of the soil-sample table is a lookup from column name to an optional numeric
  cell.  A row of a reference dataset carries its `Type` string and its boolean
  challenge-indicator columns (the engine reads them through `.astype(int)` and
  sums, i.e. as 0/1 indicators).  A missing `Type` cell is represented by its
  string form; it is never a member of the main-crop allowlist, matching
  `.isin`'s treatment of `NaN`.
* `recommend_biochar` mutates the caller's frame in place on its two early
  paths and works on a copy (line 242 of the source) otherwise.  The model
  returns a pair: the produced table and the list of columns that became
  visible on the caller's aliased frame.
* Python's `float(str)` constructor is modelled faithfully on its decimal
  grammar: optional surrounding whitespace, optional sign, digits with an
  optional fractional part, an optional exponent, and the case-insensitive
  word `nan` (a `ValueError` is the outer `none`, a `NaN` result the inner
  `none`).  The `inf`/`infinity` words and PEP 515 digit underscores are not
  modelled; no claim mentions them.
-/

namespace Biochar

/-! ### Python string primitives -/

/-- The whitespace characters `str.strip()` and `str.split()` remove
(the ASCII set; the engine's data never carries wider Unicode spacing). -/
def pyIsSpace (c : Char) : Bool :=
  c == ' ' || c == '\t' || c == '\n' || c == '\r' || c == '\x0b' || c == '\x0c'

/-- Leading-segment test on character lists. -/
def leadsWith : List Char → List Char → Bool
  | [], _ => true
  | _ :: _, [] => false
  | p :: ps, c :: cs => p == c && leadsWith ps cs

/-- Substring test (Python's `in` on strings), as a scan over suffixes. -/
def hasSub (pat : List Char) : List Char → Bool
  | [] => leadsWith pat []
  | c :: cs => leadsWith pat (c :: cs) || hasSub pat cs

/-- Substring test lifted to `String`. -/
def containsSub (needle hay : String) : Bool :=
  hasSub needle.data hay.data

/-- Model of `str.strip()`: drop whitespace from both ends. -/
def pyStrip (l : List Char) : List Char :=
  ((l.dropWhile pyIsSpace).reverse.dropWhile pyIsSpace).reverse

/-- Model of `str.strip()` on a `String`. -/
def pyStripStr (s : String) : String :=
  String.mk (pyStrip s.data)

/-- Character-wise lowercasing (`str.lower()`). -/
def lowerChars (l : List Char) : List Char :=
  l.map Char.toLower

/-- Model of `s.lower().strip()`, as the resolver computes it. -/
def pyLowerStrip (s : String) : String :=
  String.mk (pyStrip (lowerChars s.data))

/-- Model of `str.lower()` on a `String`. -/
def strToLower (s : String) : String :=
  String.mk (lowerChars s.data)

/-- Model of `str.split(sep)` for a one-character separator: splits at every
occurrence, keeping empty fragments. -/
def splitOnChar (sep : Char) : List Char → List (List Char)
  | [] => [[]]
  | c :: rest =>
      if c == sep then [] :: splitOnChar sep rest
      else
        match splitOnChar sep rest with
        | [] => [[c]]
        | g :: gs => (c :: g) :: gs

/-- Model of `str.split()` with no argument: split on whitespace runs, dropping
empty fragments.  `acc` holds the current fragment reversed. -/
def pySplitWSAux : List Char → List Char → List String
  | [], acc => if acc.isEmpty then [] else [String.mk acc.reverse]
  | c :: rest, acc =>
      if pyIsSpace c then
        if acc.isEmpty then pySplitWSAux rest []
        else String.mk acc.reverse :: pySplitWSAux rest []
      else pySplitWSAux rest (c :: acc)

/-- Model of `str.split()` on a `String`. -/
def pySplitWS (s : String) : List String :=
  pySplitWSAux s.data []

/-! ### Python `float(str)` -/

/-- Value of a digit run read in base 10. -/
def digitsToNat (l : List Char) : ℕ :=
  l.foldl (fun a c => 10 * a + (c.toNat - 48)) 0

/-- Optional leading sign: `(isNegative, rest)`. -/
def pySign : List Char → Bool × List Char
  | '-' :: rest => (true, rest)
  | '+' :: rest => (false, rest)
  | l => (false, l)

/-- The optional exponent tail of a float literal (`e`, optional sign,
digits); `[]` means exponent 0, anything else malformed. -/
def pyExpPart : List Char → Option ℤ
  | [] => some 0
  | 'e' :: rest =>
      let (neg, r) := pySign rest
      let ds := r.takeWhile Char.isDigit
      if ds.isEmpty || !(r.dropWhile Char.isDigit).isEmpty then none
      else some (if neg then -(digitsToNat ds : ℤ) else (digitsToNat ds : ℤ))
  | _ => none

/-- The unsigned numeric part of a float literal: digits, an optional
fractional part, an optional exponent. -/
def pyNumCore (l : List Char) : Option ℚ :=
  let ip := l.takeWhile Char.isDigit
  let r1 := l.dropWhile Char.isDigit
  match r1 with
  | '.' :: r2 =>
      let fp := r2.takeWhile Char.isDigit
      let r3 := r2.dropWhile Char.isDigit
      if ip.isEmpty && fp.isEmpty then none
      else
        match pyExpPart r3 with
        | some e => some (((digitsToNat ip : ℚ) + (digitsToNat fp : ℚ) / (10 : ℚ) ^ fp.length) * (10 : ℚ) ^ e)
        | none => none
  | _ =>
      if ip.isEmpty then none
      else
        match pyExpPart r1 with
        | some e => some ((digitsToNat ip : ℚ) * (10 : ℚ) ^ e)
        | none => none

/-- Python's `float(str)`: outer `none` is a raised `ValueError`, inner
`none` the float `NaN`.  Stripping and lowercasing first is faithful: the
grammar is case-insensitive and ignores surrounding whitespace. -/
def pyFloatOfChars (raw : List Char) : Option (Option ℚ) :=
  let l := lowerChars (pyStrip raw)
  let (neg, body) := pySign l
  if body = ['n', 'a', 'n'] then some none
  else
    match pyNumCore body with
    | some q => some (some (if neg then -q else q))
    | none => none

/-! ### `clean_and_convert_types` (pyrolysis_integrator.py lines 96-123) -/

/-- The mean of two `float(...)` results as `parse_value` computes it:
a raised error is caught to `NaN` (absent), and a `NaN` operand makes the
mean `NaN` (absent). -/
def rangeMean (a b : Option (Option ℚ)) : Option ℚ :=
  match a, b with
  | some (some x), some (some y) => some ((x + y) / 2)
  | some _, some _ => none
  | _, _ => none

/-- A `float(...)` call whose result lands in a pandas cell: an error or a
`NaN` both leave the cell absent. -/
def pyNanToAbsent : Option (Option ℚ) → Option ℚ
  | some (some q) => some q
  | _ => none

/-- Model of `parse_value` of `clean_and_convert_types`, on a string cell (after
`astype(str)` every surviving cell is a string; the numeric `isinstance`
branch is unreachable there). -/
def parseValueStr (s : String) : Option ℚ :=
  if s = "" then none
  else
    let t := pyStrip s.data
    if t.contains '-' && !leadsWith ['-'] t then
      match splitOnChar '-' t with
      | p0 :: p1 :: _ => rangeMean (pyFloatOfChars p0) (pyFloatOfChars p1)
      | _ => none
    else pyNanToAbsent (pyFloatOfChars t)

/-- The exact-match sentinel tokens `clean_and_convert_types` replaces with
`NaN` before applying `parse_value`. -/
def sentinelStrs : List String :=
  ["", " ", "nan", "None", "null"]

/-- One numeric cell through `clean_and_convert_types`:
`.replace(['', ' ', 'nan', 'None', 'null'], np.nan)` then `parse_value`. -/
def cleanCell (s : String) : Option ℚ :=
  if s ∈ sentinelStrs then none else parseValueStr s

/-- The columns `clean_and_convert_types` converts (`NUMERIC_COLUMNS`). -/
def numericColumns : List String :=
  ["Cellulose", "Hemicellulose", "Lignin", "Ash content", "Moisture content",
   "O (%)", "C (%)", "Fixed carbon content", "Volatile matter",
   "Final Temperature", "Heating Rate", "Residence Time\"\" (min)",
   "Biochar Yield (%)", "H/C ratio", "O/C ratio", "pH", "pore size"]

/-! ### `identify_soil_challenges` (biochar_recommender.py lines 67-110) -/

/-- Model of `pd.notna(v) and v < t` (a `NaN`/missing value triggers nothing). -/
def optLtB (v : Option ℚ) (t : ℚ) : Bool :=
  match v with
  | some x => decide (x < t)
  | none => false

/-- Model of `pd.notna(v) and v > t`. -/
def optGtB (v : Option ℚ) (t : ℚ) : Bool :=
  match v with
  | some x => decide (t < x)
  | none => false

/-- Threshold for `Low OC` (`CHALLENGE_THRESHOLDS`). -/
def socLowThreshold : ℚ := 2

/-- Threshold for `High pH`. -/
def phHighThreshold : ℚ := 8

/-- Threshold for `Low pH` (4.5). -/
def phLowThreshold : ℚ := 9 / 2

/-- Threshold for `High Temperature`. -/
def tempHighThreshold : ℚ := 30

/-- Threshold for `Low Moisture`. -/
def moistureLowThreshold : ℚ := 30

/-- Model of `identify_soil_challenges`: the fixed evaluation sequence, with the
`High pH`/`Low pH` pair an if/elif. -/
def identifySoilChallenges (soc ph moisture temperature : Option ℚ) : List String :=
  (if optLtB soc socLowThreshold then ["Low OC"] else []) ++
  (if optGtB ph phHighThreshold then ["High pH"]
   else if optLtB ph phLowThreshold then ["Low pH"] else []) ++
  (if optGtB temperature tempHighThreshold then ["High Temperature"] else []) ++
  (if optLtB moisture moistureLowThreshold then ["Low Moisture"] else [])

/-! ### Reference tables and the per-row matcher
(biochar_recommender.py lines 283-400) -/

/-- One reference-dataset row as the matcher reads it. -/
structure FeedRow where
  type : String
  flags : String → Bool

/-- A reference dataset: its column names and its rows in stable order. -/
structure RefTable where
  cols : List String
  rows : List FeedRow

/-- Model of `MAIN_CROP_FEEDSTOCKS` flattened in dict order (Coffee, Corn, Rice,
Soybean), as the matcher builds `main_feedstocks`. -/
def mainCropFeedstocks : List String :=
  ["Coffee Silverskin", "Spent Coffee Ground", "Corn Straw", "Corn cob",
   "Rice Husk", "Soybean Straw"]

/-- Model of `challenge_col_map.get(challenge)`. -/
def challengeColMap (c : String) : Option String :=
  if c = "Low OC" then some "Challenge_Low_OC"
  else if c = "High pH" then some "Challenge_High_pH"
  else if c = "Low pH" then some "Challenge_Low_pH"
  else if c = "High Temperature" then some "Challenge_High_Temperature"
  else if c = "Low Moisture" then some "Challenge_Low_Moisture"
  else none

/-- The score of one reference row: for each identified challenge whose
mapped column exists in the table, add that row's 0/1 indicator. -/
def scoreRow (cols : List String) (challenges : List String) (r : FeedRow) : ℕ :=
  challenges.foldl
    (fun acc c =>
      match challengeColMap c with
      | some name => if name ∈ cols then acc + (if r.flags name then 1 else 0) else acc
      | none => acc)
    0

/-- Model of `Series.idxmax`: the first element attaining the maximum of `f`. -/
def bestOf {α : Type} (f : α → ℕ) : List α → Option α
  | [] => none
  | a :: l =>
      match bestOf f l with
      | none => some a
      | some b => if f a < f b then some b else some a

/-- Model of `Type.isin(main_feedstocks)` for one row. -/
def isMainCrop (r : FeedRow) : Bool :=
  decide (r.type ∈ mainCropFeedstocks)

/-- The fallback-dataset pick (lines 344-358 / 381-395): the first row whose
`Type` is in the allowlist, else the first row; callers guard on a
non-empty table, so the `[]` default is unreachable. -/
def fallbackFeedstock (rows : List FeedRow) : String :=
  match rows.find? isMainCrop with
  | some r => r.type
  | none =>
      match rows with
      | r :: _ => r.type
      | [] => ""

/-- A `RecommendationResult` as the four per-row output cells. -/
structure RecResult where
  feedstock : String
  reason : String
  source : String
  quality : String
deriving DecidableEq, Repr

/-- Model of `', '.join(challenges)`. -/
def challengeListStr (cs : List String) : String :=
  String.intercalate ", " cs

/-- The reason for a positive-score match. -/
def addressesReason (m t : ℕ) (cs : List String) : String :=
  "Addresses " ++ toString m ++ "/" ++ toString t ++ " soil challenges: " ++
    challengeListStr cs

/-- The empty-challenge-set result (lines 300-305 / 368-372). -/
def noChallengeResult : RecResult :=
  ⟨"No recommendation", "No soil challenges identified - soil is in good condition",
   "general_default", "low"⟩

/-- The no-data result of the primary branch (lines 360-364). -/
def noMatchResult (cs : List String) : RecResult :=
  ⟨"No recommendation",
   "Soil challenges identified: " ++ challengeListStr cs ++ ". No matching feedstock found.",
   "general_default", "low"⟩

/-- The no-data result of the no-primary branch (lines 396-400). -/
def seePyrolysisResult (cs : List String) : RecResult :=
  ⟨"See pyrolysis data",
   "Soil challenges identified: " ++ challengeListStr cs ++
     ". Pyrolysis data not available for recommendations.",
   "general_default", "low"⟩

/-- Lines 340-364: the primary dataset produced no positive score, so try the
fallback dataset. -/
def matchRowFallbackA (cs : List String) (fall : Option RefTable) : RecResult :=
  match fall with
  | some q =>
      if q.rows.isEmpty then noMatchResult cs
      else
        ⟨fallbackFeedstock q.rows,
         "Soil challenges identified: " ++ challengeListStr cs ++
           ". Using fallback dataset feedstock (limited challenge matching).",
         "experimental_data", "high"⟩
  | none => noMatchResult cs

/-- Lines 329-364: no main-crop row scored, so take the best overall row,
else fall through to the fallback dataset. -/
def matchRowOverall (cs : List String) (p : RefTable) (fall : Option RefTable) : RecResult :=
  match bestOf (scoreRow p.cols cs) p.rows with
  | some b =>
      if 0 < scoreRow p.cols cs b then
        ⟨b.type, addressesReason (scoreRow p.cols cs b) cs.length cs ++ " (fallback feedstock)",
         "experimental_data", "high"⟩
      else matchRowFallbackA cs fall
  | none => matchRowFallbackA cs fall

/-- Lines 299-364: the loop body when the primary dataset is present and
non-empty. -/
def matchRowPrimary (cs : List String) (p : RefTable) (fall : Option RefTable) : RecResult :=
  if cs.isEmpty then noChallengeResult
  else
    match bestOf (scoreRow p.cols cs) (p.rows.filter isMainCrop) with
    | some b =>
        if 0 < scoreRow p.cols cs b then
          ⟨b.type, addressesReason (scoreRow p.cols cs b) cs.length cs,
           "experimental_data", "high"⟩
        else matchRowOverall cs p fall
    | none => matchRowOverall cs p fall

/-- Lines 367-400: the loop body when the primary dataset is absent or
empty. -/
def matchRowNoPrimary (cs : List String) (fall : Option RefTable) : RecResult :=
  if cs.isEmpty then noChallengeResult
  else
    match fall with
    | some q =>
        if q.rows.isEmpty then seePyrolysisResult cs
        else
          ⟨fallbackFeedstock q.rows,
           "Soil challenges identified: " ++ challengeListStr cs ++
             ". Using fallback dataset feedstock (limited challenge matching available).",
           "experimental_data", "high"⟩
    | none => seePyrolysisResult cs

/-- The matcher for one sample row. -/
def matchRow (cs : List String) (prim fall : Option RefTable) : RecResult :=
  match prim with
  | some p => if p.rows.isEmpty then matchRowNoPrimary cs fall else matchRowPrimary cs p fall
  | none => matchRowNoPrimary cs fall

/-! ### The batch driver `recommend_biochar` (lines 187-414) -/

/-- One row of the caller's sample table: column name to optional cell. -/
def HexRow : Type := String → Option ℚ

/-- The caller's sample table. -/
structure HexDF where
  cols : List String
  rows : List HexRow

/-- Column discovery for SOC (lines 224-225): a column containing both
`soc` and `mean` (lowercased), else any containing `soc` other than the
suitability score. -/
def socColOf (cols : List String) : Option String :=
  match cols.find? (fun c => containsSub "soc" (strToLower c) && containsSub "mean" (strToLower c)) with
  | some c => some c
  | none =>
      cols.find? (fun c =>
        containsSub "soc" (strToLower c) && !((strToLower c) == "biochar_suitability_score"))

/-- Column discovery for pH (lines 226-227). -/
def phColOf (cols : List String) : Option String :=
  match cols.find? (fun c => containsSub "ph" (strToLower c) && containsSub "mean" (strToLower c)) with
  | some c => some c
  | none =>
      cols.find? (fun c =>
        containsSub "ph" (strToLower c) && !((strToLower c) == "biochar_suitability_score"))

/-- Column discovery for moisture (lines 228-229). -/
def moistureColOf (cols : List String) : Option String :=
  match cols.find? (fun c => containsSub "moisture" (strToLower c) && containsSub "mean" (strToLower c)) with
  | some c => some c
  | none =>
      cols.find? (fun c =>
        containsSub "moisture" (strToLower c) || containsSub "sm_surface" (strToLower c))

/-- Column discovery for temperature (lines 230-231). -/
def tempColOf (cols : List String) : Option String :=
  match cols.find? (fun c =>
      (containsSub "temp" (strToLower c) || containsSub "temperature" (strToLower c)) &&
        containsSub "mean" (strToLower c)) with
  | some c => some c
  | none =>
      cols.find? (fun c => containsSub "temp" (strToLower c) || containsSub "temperature" (strToLower c))

/-- Line 247: the moisture value after `fillna(50.0)` (or the constant 50
when no moisture column was found). -/
def effMoisture (mcol : Option String) (r : HexRow) : ℚ :=
  match mcol with
  | some c => (r c).getD 50
  | none => 50

/-- Line 248: the temperature value after `fillna(20.0)` (or 20). -/
def effTemp (tcol : Option String) (r : HexRow) : ℚ :=
  match tcol with
  | some c => (r c).getD 20
  | none => 20

/-- Lines 251-271: one row's challenge list in the batch driver (the pH
flags are computed independently there, not as an if/elif). -/
def rowChallenges (sc pc : String) (mcol tcol : Option String) (r : HexRow) : List String :=
  (if optLtB (r sc) socLowThreshold then ["Low OC"] else []) ++
  (if optGtB (r pc) phHighThreshold then ["High pH"] else []) ++
  (if optLtB (r pc) phLowThreshold then ["Low pH"] else []) ++
  (if optGtB (some (effTemp tcol r)) tempHighThreshold then ["High Temperature"] else []) ++
  (if optLtB (some (effMoisture mcol r)) moistureLowThreshold then ["Low Moisture"] else [])

/-- The driver's output: the untouched input table plus the columns
assigned to it, in assignment order. -/
structure OutDF where
  base : HexDF
  added : List (String × List String)

/-- Model of `recommend_biochar`.  The second component of the result is the list of
columns that became visible on the caller's aliased frame: on the two early
paths the assignments happen before the `copy()` at line 242 and therefore
mutate the caller's frame in place; on the main path the caller's frame is
left untouched. -/
def recommendBiochar (hex : HexDF) (prim fall : Option RefTable) :
    OutDF × List (String × List String) :=
  if prim.isNone && fall.isNone then
    let added := [("Recommended_Feedstock", List.replicate hex.rows.length "Data unavailable"),
                  ("Recommendation_Reason", List.replicate hex.rows.length "Pyrolysis datasets not found")]
    (⟨hex, added⟩, added)
  else
    match socColOf hex.cols, phColOf hex.cols with
    | some sc, some pc =>
        let results := hex.rows.map (fun r =>
          matchRow (rowChallenges sc pc (moistureColOf hex.cols) (tempColOf hex.cols) r) prim fall)
        (⟨hex, [("Recommended_Feedstock", results.map RecResult.feedstock),
                ("Recommendation_Reason", results.map RecResult.reason),
                ("Data_Source", results.map RecResult.source),
                ("Data_Quality", results.map RecResult.quality)]⟩,
         [])
    | _, _ =>
        let added := [("Recommended_Feedstock", List.replicate hex.rows.length "Insufficient data"),
                      ("Recommendation_Reason", List.replicate hex.rows.length "Missing SOC or pH data for challenge identification")]
        (⟨hex, added⟩, added)

/-! ### `find_similar_feedstock` (pyrolysis_integrator.py lines 231-250) -/

/-- One entry of `SIMILAR_FEEDSTOCK_GROUPS`. -/
structure FGroup where
  name : String
  feedstocks : List String
  keywords : List String
  residueKeywords : List String

/-- The `husk_types` group. -/
def huskGroup : FGroup :=
  ⟨"husk_types", ["Rice Husk"], ["rice", "arroz"], ["husk", "casca"]⟩

/-- The `coffee_related` group. -/
def coffeeGroup : FGroup :=
  ⟨"coffee_related", ["Coffee Silverskin", "Spent Coffee Ground"],
   ["coffee", "café", "cafe"], ["silverskin", "ground", "pulp"]⟩

/-- The `corn_related` group. -/
def cornGroup : FGroup :=
  ⟨"corn_related", ["Corn Straw", "Corn cob"], ["corn", "milho", "maize"],
   ["straw", "stover", "cob", "stalk"]⟩

/-- The `legume_straws` group. -/
def legumeGroup : FGroup :=
  ⟨"legume_straws", ["Soybean Straw"],
   ["soybean", "soja", "bean", "pea", "lentil", "chickpea", "legume"],
   ["straw", "residue"]⟩

/-- The `grain_straws` group. -/
def grainGroup : FGroup :=
  ⟨"grain_straws", ["Corn Straw", "Soybean Straw"],
   ["wheat", "sorghum", "oats", "barley", "rye", "millet", "grain", "cereal", "trigo"],
   ["straw", "stover", "residue"]⟩

/-- Model of `SIMILAR_FEEDSTOCK_GROUPS` in declared (dict insertion) order. -/
def similarFeedstockGroups : List FGroup :=
  [huskGroup, coffeeGroup, cornGroup, legumeGroup, grainGroup]

/-- Crop-name match: a keyword equals the lowercased crop name or is one of
its whitespace-separated tokens. -/
def cropMatchB (g : FGroup) (cropLower : String) : Bool :=
  g.keywords.any (fun kw => kw == cropLower || (pySplitWS cropLower).contains kw)

/-- Residue match: `hasResidue` guards on the truthiness of the raw
`residue_type`; a keyword must be a substring of the lowercased residue. -/
def residueMatchB (g : FGroup) (residueLower : String) (hasResidue : Bool) : Bool :=
  hasResidue && g.residueKeywords.any (fun kw => hasSub kw.data residueLower.data)

/-- Line 246's selection condition. -/
def groupSelectedB (g : FGroup) (cropLower residueLower : String) (hasResidue : Bool) : Bool :=
  cropMatchB g cropLower ||
    (residueMatchB g residueLower hasResidue &&
      (g.name == "husk_types" || g.name == "coffee_related"))

/-- The loop over groups: first selected group with a non-empty feedstock
list wins (an empty feedstock list falls through, per line 247). -/
def pickGroup (cropLower residueLower : String) (hasResidue : Bool) :
    List FGroup → Option (String × String)
  | [] => none
  | g :: gs =>
      if groupSelectedB g cropLower residueLower hasResidue then
        match g.feedstocks with
        | f :: _ => some (f, g.name)
        | [] => pickGroup cropLower residueLower hasResidue gs
      else pickGroup cropLower residueLower hasResidue gs

/-- Truthiness of the raw `residue_type` (a `None` or empty residue
disables residue matching). -/
def hasResidueOf : Option String → Bool
  | some r => !(r == "")
  | none => false

/-- Model of `residue_type.lower().strip() if residue_type else ""`. -/
def residueLowerOf : Option String → String
  | some r => if r == "" then "" else pyLowerStrip r
  | none => ""

/-- Model of `find_similar_feedstock`.  An empty crop name is falsy (`if not
crop_name`). -/
def findSimilarFeedstock (cropName : String) (residueType : Option String) :
    Option (String × String) :=
  if cropName = "" then none
  else
    pickGroup (pyLowerStrip cropName) (residueLowerOf residueType)
      (hasResidueOf residueType) similarFeedstockGroups

/-! ### `_process_dataset` (pyrolysis_integrator.py lines 126-198) -/

/-- One raw row of a reference dataset as the extractor reads it: the
`Type` cell (`none` is `NaN`), the free-text `Soil Challenges to amend`
cell, the numeric cells by column, and the boolean challenge columns. -/
structure DataRow where
  type : Option String
  soil : Option String
  num : String → Option ℚ
  flag : String → Bool

/-- A raw reference dataset. -/
structure DataTable where
  cols : List String
  rows : List DataRow

/-- Model of `CHALLENGE_COLUMNS`. -/
def challengeColumns : List String :=
  ["Challenge_High_Temperature", "Challenge_High_pH", "Challenge_Low_Moisture",
   "Challenge_Low_OC", "Challenge_Low_pH"]

/-- Model of `PROPERTY_COLUMNS` as (key, column) pairs in dict order. -/
def propertyColumnPairs : List (String × String) :=
  [("ph", "pH"), ("carbon_content", "C (%)"), ("biochar_yield", "Biochar Yield (%)"),
   ("oc_ratio", "O/C ratio"), ("hc_ratio", "H/C ratio")]

/-- First-occurrence dedup, the order `pandas.unique` keeps. -/
def dedupFirst : List String → List String
  | [] => []
  | x :: xs => x :: (dedupFirst xs).filter (fun y => !(y == x))

/-- Sum of a list of rationals. -/
def listSum (l : List ℚ) : ℚ :=
  l.foldl (fun a x => a + x) 0

/-- Model of `Series.mean()` over non-absent values (`NaN` when there are none). -/
def statsMean (l : List ℚ) : Option ℚ :=
  if l.isEmpty then none else some (listSum l / l.length)

/-- Model of `Series.min()` (`NaN` when empty). -/
def listMin (l : List ℚ) : Option ℚ :=
  l.foldl (fun acc x => match acc with | none => some x | some m => some (min m x)) none

/-- Model of `Series.max()` (`NaN` when empty). -/
def listMax (l : List ℚ) : Option ℚ :=
  l.foldl (fun acc x => match acc with | none => some x | some m => some (max m x)) none

/-- One `properties[prop_key]` entry. -/
structure PropStats where
  values : List ℚ
  mean : Option ℚ
  vmin : Option ℚ
  vmax : Option ℚ
  count : ℕ
  column : String
deriving DecidableEq, Repr

/-- The stats record built from a column's non-absent values (lines
138-149; an absent column yields the empty record). -/
def propStatsOf (vals : List ℚ) (col : String) : PropStats :=
  ⟨vals, statsMean vals, listMin vals, listMax vals, vals.length, col⟩

/-- One `ranges[type][prop_key]` entry (lines 161-168). -/
structure RangeStats where
  vmin : Option ℚ
  vmax : Option ℚ
  mean : Option ℚ
  count : ℕ
deriving DecidableEq, Repr

/-- Per-type range stats (an absent column yields the empty record). -/
def rangeStatsOf (vals : List ℚ) : RangeStats :=
  ⟨listMin vals, listMax vals, statsMean vals, vals.length⟩

/-- A column's non-absent values across the whole table (`dropna`). -/
def colValues (df : DataTable) (col : String) : List ℚ :=
  df.rows.filterMap (fun r => r.num col)

/-- The rows of one `Type` (`df[df['Type'] == feedstock]`). -/
def typeRows (df : DataTable) (t : String) : List DataRow :=
  df.rows.filter (fun r => r.type == some t)

/-- Model of `df['Type'].unique()` with `NaN` entries skipped (the loops `continue`
on `pd.isna(feedstock)`). -/
def uniqueTypes (df : DataTable) : List String :=
  dedupFirst (df.rows.filterMap (fun r => r.type))

/-- Strip one fragment of a `;`-split (`c.strip()`). -/
def stripPart (p : List Char) : String :=
  String.mk (pyStrip p)

/-- Lines 180-187: labels collected from the free-text column across one
type's rows — the distinct non-absent cell values, each split on `;` when
one is present and stripped. -/
def textChallenges (rowsT : List DataRow) : List String :=
  (dedupFirst (rowsT.filterMap DataRow.soil)).foldl
    (fun acc v =>
      if !(v == "") then
        if v.data.contains ';' then acc ++ (splitOnChar ';' v.data).map stripPart
        else acc ++ [pyStripStr v]
      else acc)
    []

/-- Remove every occurrence of `pat` (Python `str.replace(pat, '')`). -/
def removePat (pat : List Char) (l : List Char) : List Char :=
  match l with
  | [] => []
  | c :: rest =>
      if h : pat ≠ [] ∧ leadsWith pat (c :: rest) = true then
        removePat pat ((c :: rest).drop pat.length)
      else c :: removePat pat rest
termination_by l.length
decreasing_by
  · simp only [List.length_drop, List.length_cons]
    have : pat.length ≠ 0 := fun hz => h.1 (List.length_eq_zero.mp hz)
    omega
  · simp

/-- Line 192: `col.replace('Challenge_', '').replace('_', ' ')`. -/
def humanizeChal (c : String) : String :=
  String.mk ((removePat "Challenge_".data c.data).map (fun ch => if ch == '_' then ' ' else ch))

/-- Lines 189-194: append the humanized name of every boolean challenge
column that exists and is true somewhere in the type's rows, skipping names
already collected. -/
def flagChallenges (cols : List String) (rowsT : List DataRow) (acc0 : List String) : List String :=
  challengeColumns.foldl
    (fun acc colName =>
      if cols.contains colName && rowsT.any (fun r => r.flag colName) then
        if (humanizeChal colName) ∈ acc then acc else acc ++ [humanizeChal colName]
      else acc)
    acc0

/-- Model of `list(set(...))` (line 196): deduplication; a Python set iterates in an
implementation-defined order, modelled as first-occurrence order. -/
def listSet (l : List String) : List String :=
  dedupFirst l

/-- One type's final challenge label list. -/
def typeChallenges (df : DataTable) (t : String) : List String :=
  listSet (flagChallenges df.cols (typeRows df t) (textChallenges (typeRows df t)))

/-- The three indices `_process_dataset` returns. -/
structure ProcResult where
  properties : List (String × PropStats)
  ranges : List (String × List (String × RangeStats))
  challenges : List (String × List String)

/-- Model of `_process_dataset`. -/
def processDataset (df : DataTable) : ProcResult :=
  { properties :=
      propertyColumnPairs.map (fun pk =>
        (pk.1, if df.cols.contains pk.2 then propStatsOf (colValues df pk.2) pk.2
               else propStatsOf [] pk.2)),
    ranges :=
      if df.cols.contains "Type" then
        (uniqueTypes df).map (fun t =>
          (t, propertyColumnPairs.map (fun pk =>
            (pk.1, if df.cols.contains pk.2 then
                     rangeStatsOf ((typeRows df t).filterMap (fun r => r.num pk.2))
                   else rangeStatsOf []))))
      else [],
    challenges :=
      if df.cols.contains "Type" && df.cols.contains "Soil Challenges to amend" then
        (uniqueTypes df).map (fun t => (t, typeChallenges df t))
      else [] }

/-! ### Small concrete tables used to instantiate the theorems -/

/-- Indicator of the `Challenge_Low_OC` column alone. -/
def flagLowOC : String → Bool := fun c => c == "Challenge_Low_OC"

/-- A two-row primary table: a non-allowlist row and an allowlist row with
equal positive scores. -/
def tableC3 : RefTable :=
  ⟨["Challenge_Low_OC"], [⟨"Wood", flagLowOC⟩, ⟨"Rice Husk", flagLowOC⟩]⟩

/-- A primary table with no challenge columns: every row scores zero. -/
def tableC4p : RefTable := ⟨[], [⟨"Wood", fun _ => false⟩]⟩

/-- A non-empty fallback table. -/
def tableC4q : RefTable := ⟨[], [⟨"Rice Husk", fun _ => false⟩]⟩

/-! ## Theorems -/

lemma bestOf_eq_none_iff {α : Type} (f : α → ℕ) (l : List α) :
    bestOf f l = none ↔ l = [] := by
  cases l with
  | nil => simp [bestOf]
  | cons a t =>
      simp only [bestOf]
      cases bestOf f t with
      | none => simp
      | some b => by_cases h : f a < f b <;> simp [h]

lemma bestOf_isSome {α : Type} (f : α → ℕ) (l : List α) (h : l ≠ []) :
    ∃ b, bestOf f l = some b := by
  cases hb : bestOf f l with
  | none => exact absurd ((bestOf_eq_none_iff f l).mp hb) h
  | some b => exact ⟨b, rfl⟩

/-- Model of `idxmax` characterization: `bestOf` returns the first element attaining
the maximum. -/
lemma bestOf_spec {α : Type} (f : α → ℕ) :
    ∀ (l : List α) (b : α), bestOf f l = some b →
      ∃ l₁ l₂, l = l₁ ++ b :: l₂ ∧ (∀ x ∈ l₁, f x < f b) ∧ ∀ x ∈ l, f x ≤ f b := by
  intro l
  induction l with
  | nil => intro b h; cases h
  | cons a t ih =>
      intro b h
      simp only [bestOf] at h
      cases ht : bestOf f t with
      | none =>
          rw [ht] at h
          obtain rfl : a = b := by cases h; rfl
          have : t = [] := (bestOf_eq_none_iff f t).mp ht
          subst this
          exact ⟨[], [], rfl, by simp, by simp⟩
      | some c =>
          rw [ht] at h
          dsimp only at h
          obtain ⟨l₁, l₂, hteq, hlt, hle⟩ := ih c ht
          by_cases hac : f a < f c
          · rw [if_pos hac] at h
            obtain rfl : c = b := by cases h; rfl
            refine ⟨a :: l₁, l₂, by simp [hteq], ?_, ?_⟩
            · intro x hx
              rcases List.mem_cons.mp hx with rfl | hx
              · exact hac
              · exact hlt x hx
            · intro x hx
              rcases List.mem_cons.mp hx with rfl | hx
              · exact le_of_lt hac
              · exact hle x hx
          · rw [if_neg hac] at h
            obtain rfl : a = b := by cases h; rfl
            refine ⟨[], t, rfl, by simp, ?_⟩
            intro x hx
            rcases List.mem_cons.mp hx with rfl | hx
            · exact le_refl _
            · exact le_trans (hle x hx) (not_lt.mp hac)

lemma bestOf_mem {α : Type} (f : α → ℕ) (l : List α) (b : α)
    (h : bestOf f l = some b) : b ∈ l := by
  obtain ⟨l₁, l₂, hsplit, -, -⟩ := bestOf_spec f l b h
  rw [hsplit]
  exact List.mem_append.mpr (Or.inr (List.mem_cons_self _ _))

/-- C1: for every pair of reference datasets (each possibly absent or
empty) and a sample whose identified challenge set is empty, the matcher
returns `{feedstock: "No recommendation", data_source: general_default,
data_quality: low}`, independently of the datasets' content. -/
theorem c1_empty_challenge_terminal (prim fall : Option RefTable) :
    matchRow [] prim fall =
      ⟨"No recommendation", "No soil challenges identified - soil is in good condition",
       "general_default", "low"⟩ := by
  rcases prim with _ | p
  · rcases fall with _ | q <;> rfl
  · cases hp : p.rows.isEmpty <;>
      simp [matchRow, hp, matchRowPrimary, matchRowNoPrimary, noChallengeResult]

/-- C10: when both datasets are null, `recommend_biochar` sets
`Recommended_Feedstock = "Data unavailable"` and `Recommendation_Reason =
"Pyrolysis datasets not found"` on every row, on the caller's frame in
place (the second component of the model's result), before column
discovery — so the outcome is the same for any column list. -/
theorem c10_data_unavailable_in_place (cols : List String) (rows : List HexRow) :
    recommendBiochar ⟨cols, rows⟩ none none =
      (⟨⟨cols, rows⟩,
        [("Recommended_Feedstock", List.replicate rows.length "Data unavailable"),
         ("Recommendation_Reason", List.replicate rows.length "Pyrolysis datasets not found")]⟩,
       [("Recommended_Feedstock", List.replicate rows.length "Data unavailable"),
        ("Recommendation_Reason", List.replicate rows.length "Pyrolysis datasets not found")]) ∧
    (∀ cols' : List String,
      (recommendBiochar ⟨cols, rows⟩ none none).1.added =
        (recommendBiochar ⟨cols', rows⟩ none none).1.added) :=
  ⟨rfl, fun _ => rfl⟩

/-- C2 counterexample: on both degraded paths — both datasets null, and a
dataset present but no SOC/pH column discoverable — the output table gains
only two columns; `Data_Source` (and `Data_Quality`) are not populated,
contrary to the claim. -/
theorem c2_counterexample :
    ((recommendBiochar ⟨["mean_soc", "mean_ph"], [fun _ => none]⟩ none none).1.added.map
        Prod.fst =
      ["Recommended_Feedstock", "Recommendation_Reason"]) ∧
    "Data_Source" ∉
      ((recommendBiochar ⟨["mean_soc", "mean_ph"], [fun _ => none]⟩ none none).1.added.map
        Prod.fst) ∧
    ((recommendBiochar ⟨["x"], [fun _ => none]⟩ (some ⟨[], []⟩) none).1.added.map
        Prod.fst =
      ["Recommended_Feedstock", "Recommendation_Reason"]) ∧
    "Data_Source" ∉
      ((recommendBiochar ⟨["x"], [fun _ => none]⟩ (some ⟨[], []⟩) none).1.added.map
        Prod.fst) := by
  have h1 : ((recommendBiochar ⟨["mean_soc", "mean_ph"], [fun _ => none]⟩ none none).1.added.map
      Prod.fst = ["Recommended_Feedstock", "Recommendation_Reason"]) := rfl
  have h2 : ((recommendBiochar ⟨["x"], [fun _ => none]⟩ (some ⟨[], []⟩) none).1.added.map
      Prod.fst = ["Recommended_Feedstock", "Recommendation_Reason"]) := rfl
  refine ⟨h1, ?_, h2, ?_⟩
  · rw [h1]
    decide
  · rw [h2]
    decide

/-- C2 amended: for every batch of N rows the output keeps the input rows
(count and order) and every appended column has N entries; on the normal
path (some dataset loaded, SOC and pH columns found) exactly the four
columns `Recommended_Feedstock`, `Recommendation_Reason`, `Data_Source`,
`Data_Quality` are appended, while on each of the two degraded paths
(both datasets null; a dataset present but SOC or pH column missing)
exactly the two columns `Recommended_Feedstock` and
`Recommendation_Reason` are appended, with their constant sentinel
values. -/
theorem c2_amended_rows_and_columns (hex : HexDF) (prim fall : Option RefTable) :
    (recommendBiochar hex prim fall).1.base = hex ∧
    (∀ pr ∈ (recommendBiochar hex prim fall).1.added, pr.2.length = hex.rows.length) ∧
    ((recommendBiochar hex prim fall).1.added.map Prod.fst =
        ["Recommended_Feedstock", "Recommendation_Reason"] ∨
      (recommendBiochar hex prim fall).1.added.map Prod.fst =
        ["Recommended_Feedstock", "Recommendation_Reason", "Data_Source", "Data_Quality"]) ∧
    ((prim.isNone && fall.isNone) = false → (socColOf hex.cols).isSome →
      (phColOf hex.cols).isSome →
      (recommendBiochar hex prim fall).1.added.map Prod.fst =
        ["Recommended_Feedstock", "Recommendation_Reason", "Data_Source", "Data_Quality"]) ∧
    ((prim.isNone && fall.isNone) = true →
      (recommendBiochar hex prim fall).1.added =
        [("Recommended_Feedstock", List.replicate hex.rows.length "Data unavailable"),
         ("Recommendation_Reason",
          List.replicate hex.rows.length "Pyrolysis datasets not found")]) ∧
    ((prim.isNone && fall.isNone) = false →
      (socColOf hex.cols = none ∨ phColOf hex.cols = none) →
      (recommendBiochar hex prim fall).1.added =
        [("Recommended_Feedstock", List.replicate hex.rows.length "Insufficient data"),
         ("Recommendation_Reason",
          List.replicate hex.rows.length
            "Missing SOC or pH data for challenge identification")]) := by
  by_cases hnn : (prim.isNone && fall.isNone) = true
  · simp [recommendBiochar, hnn]
  · have hf : (prim.isNone && fall.isNone) = false := by
      cases h : (prim.isNone && fall.isNone)
      · rfl
      · exact absurd h hnn
    rcases hsoc : socColOf hex.cols with _ | sc <;>
      rcases hph : phColOf hex.cols with _ | pc <;>
        simp [recommendBiochar, hf, hsoc, hph]

lemma optLtB_eq_true_iff {v : Option ℚ} {t : ℚ} :
    optLtB v t = true ↔ ∃ x, v = some x ∧ x < t := by
  cases v <;> simp [optLtB]

lemma optGtB_eq_true_iff {v : Option ℚ} {t : ℚ} :
    optGtB v t = true ↔ ∃ x, v = some x ∧ t < x := by
  cases v <;> simp [optGtB]

lemma mem_ite_singleton {x y : String} {c : Bool} :
    (x ∈ if c then [y] else []) ↔ c = true ∧ x = y := by
  cases c <;> simp

lemma mem_ite_pair {x h l : String} {c d : Bool} :
    (x ∈ if c then [h] else if d then [l] else []) ↔
      (c = true ∧ x = h) ∨ (c = false ∧ d = true ∧ x = l) := by
  cases c <;> cases d <;> simp

lemma identify_mem_lowOC (soc ph moisture temperature : Option ℚ) :
    "Low OC" ∈ identifySoilChallenges soc ph moisture temperature ↔
      optLtB soc socLowThreshold = true := by
  simp [identifySoilChallenges, List.mem_append, mem_ite_singleton, mem_ite_pair]

lemma identify_mem_highPH (soc ph moisture temperature : Option ℚ) :
    "High pH" ∈ identifySoilChallenges soc ph moisture temperature ↔
      optGtB ph phHighThreshold = true := by
  simp [identifySoilChallenges, List.mem_append, mem_ite_singleton, mem_ite_pair]

lemma identify_mem_lowPH (soc ph moisture temperature : Option ℚ) :
    "Low pH" ∈ identifySoilChallenges soc ph moisture temperature ↔
      (optGtB ph phHighThreshold = false ∧ optLtB ph phLowThreshold = true) := by
  simp [identifySoilChallenges, List.mem_append, mem_ite_singleton, mem_ite_pair]

lemma identify_mem_highTemp (soc ph moisture temperature : Option ℚ) :
    "High Temperature" ∈ identifySoilChallenges soc ph moisture temperature ↔
      optGtB temperature tempHighThreshold = true := by
  simp [identifySoilChallenges, List.mem_append, mem_ite_singleton, mem_ite_pair]

lemma identify_mem_lowMoisture (soc ph moisture temperature : Option ℚ) :
    "Low Moisture" ∈ identifySoilChallenges soc ph moisture temperature ↔
      optLtB moisture moistureLowThreshold = true := by
  simp [identifySoilChallenges, List.mem_append, mem_ite_singleton, mem_ite_pair]

/-- C5: challenge identification returns exactly the labels whose strict
threshold holds, `High pH`/`Low pH` never together, boundary values and
absent measurements trigger nothing, and the output is always in the fixed
order Low OC, High pH, Low pH, High Temperature, Low Moisture. -/
theorem c5_challenge_identification :
    (∀ soc ph moisture temperature : Option ℚ,
      ("Low OC" ∈ identifySoilChallenges soc ph moisture temperature ↔
        ∃ x, soc = some x ∧ x < 2)) ∧
    (∀ soc ph moisture temperature : Option ℚ,
      ("High pH" ∈ identifySoilChallenges soc ph moisture temperature ↔
        ∃ x, ph = some x ∧ 8 < x)) ∧
    (∀ soc ph moisture temperature : Option ℚ,
      ("Low pH" ∈ identifySoilChallenges soc ph moisture temperature ↔
        ∃ x, ph = some x ∧ x < 9 / 2)) ∧
    (∀ soc ph moisture temperature : Option ℚ,
      ("High Temperature" ∈ identifySoilChallenges soc ph moisture temperature ↔
        ∃ x, temperature = some x ∧ 30 < x)) ∧
    (∀ soc ph moisture temperature : Option ℚ,
      ("Low Moisture" ∈ identifySoilChallenges soc ph moisture temperature ↔
        ∃ x, moisture = some x ∧ x < 30)) ∧
    (∀ soc ph moisture temperature : Option ℚ,
      ¬("High pH" ∈ identifySoilChallenges soc ph moisture temperature ∧
        "Low pH" ∈ identifySoilChallenges soc ph moisture temperature)) ∧
    (∀ soc moisture temperature : Option ℚ,
      "Low pH" ∉ identifySoilChallenges soc (some (9 / 2)) moisture temperature ∧
      "High pH" ∉ identifySoilChallenges soc (some 8) moisture temperature) ∧
    identifySoilChallenges none none none none = [] ∧
    (∀ soc ph moisture temperature : Option ℚ,
      List.Sublist (identifySoilChallenges soc ph moisture temperature)
        ["Low OC", "High pH", "Low pH", "High Temperature", "Low Moisture"]) := by
  refine ⟨?_, ?_, ?_, ?_, ?_, ?_, ?_, ?_, ?_⟩
  · intro soc ph m t
    rw [identify_mem_lowOC soc ph m t, optLtB_eq_true_iff]
    exact Iff.rfl
  · intro soc ph m t
    rw [identify_mem_highPH soc ph m t, optGtB_eq_true_iff]
    exact Iff.rfl
  · intro soc ph m t
    rw [identify_mem_lowPH soc ph m t]
    constructor
    · rintro ⟨-, hlt⟩
      exact optLtB_eq_true_iff.mp hlt
    · rintro ⟨x, hx, hlt⟩
      refine ⟨?_, optLtB_eq_true_iff.mpr ⟨x, hx, hlt⟩⟩
      subst hx
      simp only [optGtB, phHighThreshold, decide_eq_false_iff_not]
      intro hgt
      have : (8 : ℚ) < 9 / 2 := lt_trans hgt hlt
      norm_num at this
  · intro soc ph m t
    rw [identify_mem_highTemp soc ph m t, optGtB_eq_true_iff]
    exact Iff.rfl
  · intro soc ph m t
    rw [identify_mem_lowMoisture soc ph m t, optLtB_eq_true_iff]
    exact Iff.rfl
  · intro soc ph m t
    rintro ⟨hH, hL⟩
    rw [identify_mem_highPH soc ph m t] at hH
    rw [identify_mem_lowPH soc ph m t] at hL
    rw [hH] at hL
    exact absurd hL.1 (by decide)
  · intro soc m t
    constructor
    · intro hmem
      have := ((identify_mem_lowPH soc (some (9 / 2)) m t).mp hmem).2
      simp [optLtB, phLowThreshold] at this
    · intro hmem
      have := (identify_mem_highPH soc (some 8) m t).mp hmem
      simp [optGtB, phHighThreshold] at this
  · rfl
  · intro soc ph m t
    unfold identifySoilChallenges
    have h1 : List.Sublist (if optLtB soc socLowThreshold then ["Low OC"] else []) ["Low OC"] := by
      split <;> simp
    have h2 : List.Sublist (if optGtB ph phHighThreshold then ["High pH"]
        else if optLtB ph phLowThreshold then ["Low pH"] else []) ["High pH", "Low pH"] := by
      split
      · exact (List.nil_sublist _).cons₂ _
      · split
        · exact ((List.nil_sublist _).cons₂ _).cons _
        · exact List.nil_sublist _
    have h3 : List.Sublist
        (if optGtB t tempHighThreshold then ["High Temperature"] else [])
        ["High Temperature"] := by split <;> simp
    have h4 : List.Sublist
        (if optLtB m moistureLowThreshold then ["Low Moisture"] else [])
        ["Low Moisture"] := by split <;> simp
    exact ((h1.append h2).append h3).append h4

/-- C5 witness: at the spec's sample inputs the characterization yields the
expected labels. -/
theorem c5_witness :
    "Low OC" ∈ identifySoilChallenges (some (3 / 2)) (some 7) (some 50) (some 25) ∧
    identifySoilChallenges (some 3) (some 9) (some 20) (some 35) =
      ["High pH", "High Temperature", "Low Moisture"] :=
  ⟨(c5_challenge_identification.1 (some (3 / 2)) (some 7) (some 50) (some 25)).mpr
      ⟨3 / 2, rfl, by norm_num⟩,
   by decide⟩

/-- C2 amended, instantiated: with a primary dataset present and
discoverable SOC/pH columns all four columns are appended, and with a
primary dataset present but no discoverable SOC column only the two
sentinel columns are. -/
theorem c2_amended_witness :
    ((recommendBiochar ⟨["soc", "ph"], []⟩ (some ⟨[], []⟩) none).1.added.map Prod.fst =
      ["Recommended_Feedstock", "Recommendation_Reason", "Data_Source", "Data_Quality"]) ∧
    (recommendBiochar ⟨["x"], []⟩ (some ⟨[], []⟩) none).1.added =
      [("Recommended_Feedstock", List.replicate 0 "Insufficient data"),
       ("Recommendation_Reason",
        List.replicate 0 "Missing SOC or pH data for challenge identification")] :=
  ⟨(c2_amended_rows_and_columns ⟨["soc", "ph"], []⟩ (some ⟨[], []⟩) none).2.2.2.1
      (by decide) (by decide) (by decide),
   (c2_amended_rows_and_columns ⟨["x"], []⟩ (some ⟨[], []⟩) none).2.2.2.2.2
      (by decide) (Or.inl (by decide))⟩

/-- C3: with a non-empty challenge set and a primary dataset holding two
equally and positively scored rows, one allowlisted and one not, the
matcher selects an allowlist member — the first allowlist row attaining the
maximum allowlist score in stable row order — with source
`experimental_data` and quality `high`. -/
theorem c3_main_crop_preference
    (cs : List String) (p : RefTable) (fall : Option RefTable) (r₁ r₂ : FeedRow)
    (hcs : cs ≠ []) (h₁ : r₁ ∈ p.rows) (h₂ : r₂ ∈ p.rows)
    (ht₁ : r₁.type ∈ mainCropFeedstocks) (ht₂ : r₂.type ∉ mainCropFeedstocks)
    (heq : scoreRow p.cols cs r₂ = scoreRow p.cols cs r₁)
    (hpos : 0 < scoreRow p.cols cs r₁) :
    ∃ b l₁ l₂,
      p.rows.filter isMainCrop = l₁ ++ b :: l₂ ∧
      b.type ∈ mainCropFeedstocks ∧
      (∀ x ∈ l₁, scoreRow p.cols cs x < scoreRow p.cols cs b) ∧
      (∀ x ∈ p.rows.filter isMainCrop, scoreRow p.cols cs x ≤ scoreRow p.cols cs b) ∧
      matchRow cs (some p) fall =
        ⟨b.type, addressesReason (scoreRow p.cols cs b) cs.length cs,
         "experimental_data", "high"⟩ := by
  have hmem : r₁ ∈ p.rows.filter isMainCrop :=
    List.mem_filter.mpr ⟨h₁, decide_eq_true ht₁⟩
  obtain ⟨b, hb⟩ := bestOf_isSome (scoreRow p.cols cs) _ (List.ne_nil_of_mem hmem)
  obtain ⟨l₁, l₂, hsplit, hlt, hle⟩ := bestOf_spec _ _ _ hb
  have hbmem : b ∈ p.rows.filter isMainCrop := bestOf_mem _ _ _ hb
  have hbmain : b.type ∈ mainCropFeedstocks :=
    of_decide_eq_true (List.mem_filter.mp hbmem).2
  have hbpos : 0 < scoreRow p.cols cs b := lt_of_lt_of_le hpos (hle r₁ hmem)
  refine ⟨b, l₁, l₂, hsplit, hbmain, hlt, hle, ?_⟩
  have hrows : p.rows.isEmpty = false := by
    rcases hr : p.rows with _ | ⟨a, t⟩
    · rw [hr] at h₁; cases h₁
    · rfl
  have hcsE : cs.isEmpty = false := by
    rcases cs with _ | ⟨c, t⟩
    · exact absurd rfl hcs
    · rfl
  simp [matchRow, hrows, matchRowPrimary, hcsE, hb, hbpos]

/-- C3 instantiated on a concrete two-row table with equal positive
scores. -/
theorem c3_witness :
    ∃ b l₁ l₂,
      tableC3.rows.filter isMainCrop = l₁ ++ b :: l₂ ∧
      b.type ∈ mainCropFeedstocks ∧
      (∀ x ∈ l₁, scoreRow tableC3.cols ["Low OC"] x < scoreRow tableC3.cols ["Low OC"] b) ∧
      (∀ x ∈ tableC3.rows.filter isMainCrop,
        scoreRow tableC3.cols ["Low OC"] x ≤ scoreRow tableC3.cols ["Low OC"] b) ∧
      matchRow ["Low OC"] (some tableC3) none =
        ⟨b.type, addressesReason (scoreRow tableC3.cols ["Low OC"] b) (["Low OC"].length)
          ["Low OC"], "experimental_data", "high"⟩ :=
  c3_main_crop_preference ["Low OC"] tableC3 none
    ⟨"Rice Husk", flagLowOC⟩ ⟨"Wood", flagLowOC⟩
    (List.cons_ne_nil _ _)
    (List.mem_cons_of_mem _ (List.mem_cons_self _ _))
    (List.mem_cons_self _ _)
    (by decide) (by decide) (by decide) (by decide)

/-- C4: with a non-empty challenge set, a primary dataset present whose
rows all score zero, and a non-empty fallback dataset, the result comes
from the fallback with source `experimental_data` (never
`general_default`): the first fallback row whose `Type` is allowlisted,
else the first fallback row. -/
theorem c4_fallback_uses_experimental
    (cs : List String) (p q : RefTable)
    (hcs : cs ≠ []) (hz : ∀ r ∈ p.rows, scoreRow p.cols cs r = 0) (hq : q.rows ≠ []) :
    (matchRow cs (some p) (some q)).source = "experimental_data" ∧
    (matchRow cs (some p) (some q)).quality = "high" ∧
    (matchRow cs (some p) (some q)).feedstock = fallbackFeedstock q.rows ∧
    (∀ r, q.rows.find? isMainCrop = some r →
      fallbackFeedstock q.rows = r.type ∧ r.type ∈ mainCropFeedstocks) ∧
    (∀ r₀ t, q.rows = r₀ :: t → q.rows.find? isMainCrop = none →
      fallbackFeedstock q.rows = r₀.type) := by
  have hqE : q.rows.isEmpty = false := by
    rcases hr : q.rows with _ | ⟨a, t⟩
    · exact absurd hr hq
    · rfl
  have hcsE : cs.isEmpty = false := by
    rcases cs with _ | ⟨c, t⟩
    · exact absurd rfl hcs
    · rfl
  have hfind1 : ∀ r, q.rows.find? isMainCrop = some r →
      fallbackFeedstock q.rows = r.type ∧ r.type ∈ mainCropFeedstocks := by
    intro r hr
    refine ⟨by simp [fallbackFeedstock, hr], ?_⟩
    have hbt := List.find?_some hr
    simpa [isMainCrop] using hbt
  have hfind2 : ∀ r₀ t, q.rows = r₀ :: t → q.rows.find? isMainCrop = none →
      fallbackFeedstock q.rows = r₀.type := by
    intro r₀ t hqrows hnone
    unfold fallbackFeedstock
    rw [hnone, hqrows]
  have hfb : matchRowFallbackA cs (some q) =
      ⟨fallbackFeedstock q.rows,
       "Soil challenges identified: " ++ challengeListStr cs ++
         ". Using fallback dataset feedstock (limited challenge matching).",
       "experimental_data", "high"⟩ := by
    simp [matchRowFallbackA, hqE]
  cases hrows : p.rows.isEmpty with
  | true =>
      have hres : matchRow cs (some p) (some q) =
          ⟨fallbackFeedstock q.rows,
           "Soil challenges identified: " ++ challengeListStr cs ++
             ". Using fallback dataset feedstock (limited challenge matching available).",
           "experimental_data", "high"⟩ := by
        simp [matchRow, hrows, matchRowNoPrimary, hcsE, hqE]
      exact ⟨by rw [hres], by rw [hres], by rw [hres], hfind1, hfind2⟩
  | false =>
      have hover : matchRowOverall cs p (some q) = matchRowFallbackA cs (some q) := by
        unfold matchRowOverall
        cases hbo : bestOf (scoreRow p.cols cs) p.rows with
        | none => rfl
        | some b =>
            have hb0 : scoreRow p.cols cs b = 0 := hz b (bestOf_mem _ _ _ hbo)
            simp [hb0]
      have hres : matchRow cs (some p) (some q) = matchRowFallbackA cs (some q) := by
        simp only [matchRow, hrows, Bool.false_eq_true, if_false, matchRowPrimary, hcsE]
        cases hbm : bestOf (scoreRow p.cols cs) (p.rows.filter isMainCrop) with
        | none => simpa only [hbm] using hover
        | some b =>
            have hb0 : scoreRow p.cols cs b = 0 :=
              hz b (List.mem_of_mem_filter (bestOf_mem _ _ _ hbm))
            simp only [hbm, hb0]
            simpa using hover
      rw [hres, hfb]
      exact ⟨rfl, rfl, rfl, hfind1, hfind2⟩

/-- C4 instantiated: a zero-scoring one-row primary and a one-row
fallback. -/
theorem c4_witness :
    (matchRow ["Low OC"] (some tableC4p) (some tableC4q)).source = "experimental_data" ∧
    (matchRow ["Low OC"] (some tableC4p) (some tableC4q)).quality = "high" ∧
    (matchRow ["Low OC"] (some tableC4p) (some tableC4q)).feedstock =
      fallbackFeedstock tableC4q.rows ∧
    (∀ r, tableC4q.rows.find? isMainCrop = some r →
      fallbackFeedstock tableC4q.rows = r.type ∧ r.type ∈ mainCropFeedstocks) ∧
    (∀ r₀ t, tableC4q.rows = r₀ :: t → tableC4q.rows.find? isMainCrop = none →
      fallbackFeedstock tableC4q.rows = r₀.type) :=
  c4_fallback_uses_experimental ["Low OC"] tableC4p tableC4q
    (List.cons_ne_nil _ _) (fun r _ => rfl) (List.cons_ne_nil _ _)

/-- C8: the neutral defaults (moisture 50, temperature 20) are substituted
before challenge identification — the row's challenge list is exactly
`identify_soil_challenges` of the default-filled values — so a row with an
absent moisture value or no moisture column never gets `Low Moisture`, and
likewise for temperature and `High Temperature`. -/
theorem c8_default_filling (sc pc : String) (mcol tcol : Option String) (r : HexRow) :
    rowChallenges sc pc mcol tcol r =
      identifySoilChallenges (r sc) (r pc) (some (effMoisture mcol r))
        (some (effTemp tcol r)) ∧
    ((mcol = none ∨ ∃ c, mcol = some c ∧ r c = none) →
      effMoisture mcol r = 50 ∧ "Low Moisture" ∉ rowChallenges sc pc mcol tcol r) ∧
    ((tcol = none ∨ ∃ c, tcol = some c ∧ r c = none) →
      effTemp tcol r = 20 ∧ "High Temperature" ∉ rowChallenges sc pc mcol tcol r) := by
  have hmain : rowChallenges sc pc mcol tcol r =
      identifySoilChallenges (r sc) (r pc) (some (effMoisture mcol r))
        (some (effTemp tcol r)) := by
    unfold rowChallenges identifySoilChallenges
    cases hpc : r pc with
    | none => simp [optGtB, optLtB]
    | some x =>
        by_cases h8 : phHighThreshold < x
        · have h45 : ¬ x < phLowThreshold := by
            simp only [phHighThreshold] at h8
            simp only [phLowThreshold]
            intro hlt
            linarith
          simp [optGtB, optLtB, h8, h45]
        · by_cases h45 : x < phLowThreshold <;> simp [optGtB, optLtB, h8, h45]
  refine ⟨hmain, ?_, ?_⟩
  · intro h
    have h50 : effMoisture mcol r = 50 := by
      rcases h with rfl | ⟨c, rfl, hc⟩
      · rfl
      · simp [effMoisture, hc]
    refine ⟨h50, ?_⟩
    rw [hmain, h50]
    intro hmem
    have := (identify_mem_lowMoisture (r sc) (r pc) (some (50 : ℚ))
        (some (effTemp tcol r))).mp hmem
    simp [optLtB, moistureLowThreshold] at this
    norm_num at this
  · intro h
    have h20 : effTemp tcol r = 20 := by
      rcases h with rfl | ⟨c, rfl, hc⟩
      · rfl
      · simp [effTemp, hc]
    refine ⟨h20, ?_⟩
    rw [hmain, h20]
    intro hmem
    have := (identify_mem_highTemp (r sc) (r pc) (some (effMoisture mcol r))
        (some (20 : ℚ))).mp hmem
    simp [optGtB, tempHighThreshold] at this
    norm_num at this

/-- C8 instantiated: a row with no moisture and no temperature column gets
the defaults and neither label. -/
theorem c8_witness :
    (effMoisture none (fun _ => none) = 50 ∧
      "Low Moisture" ∉ rowChallenges "s" "p" none none (fun _ => none)) ∧
    (effTemp none (fun _ => none) = 20 ∧
      "High Temperature" ∉ rowChallenges "s" "p" none none (fun _ => none)) :=
  ⟨(c8_default_filling "s" "p" none none (fun _ => none)).2.1 (Or.inl rfl),
   (c8_default_filling "s" "p" none none (fun _ => none)).2.2 (Or.inl rfl)⟩

lemma dedupFirst_nodup : ∀ l : List String, (dedupFirst l).Nodup := by
  intro l
  induction l with
  | nil => simp [dedupFirst]
  | cons x xs ih =>
      simp only [dedupFirst]
      refine List.nodup_cons.mpr ⟨?_, ih.filter _⟩
      intro hmem
      have hb := (List.mem_filter.mp hmem).2
      simp at hb

/-- C9: the extracted per-type challenge lists never contain duplicate
labels, and the extractor is a pure function of its input. -/
theorem c9_challenge_dedup :
    (∀ df : DataTable, ∀ e ∈ (processDataset df).challenges, e.2.Nodup) ∧
    (∀ df df' : DataTable, df = df' → processDataset df = processDataset df') := by
  constructor
  · intro df e he
    dsimp only [processDataset] at he
    split at he
    · obtain ⟨t, -, rfl⟩ := List.mem_map.mp he
      exact dedupFirst_nodup _
    · cases he
  · intro df df' h
    rw [h]

lemma pickGroup_eq_some {cl rl : String} {hr : Bool} :
    ∀ (gs : List FGroup) (f g : String), pickGroup cl rl hr gs = some (f, g) →
      ∃ l₁ gr l₂, gs = l₁ ++ gr :: l₂ ∧ gr.name = g ∧ gr.feedstocks.head? = some f ∧
        groupSelectedB gr cl rl hr = true ∧
        ∀ gr' ∈ l₁, groupSelectedB gr' cl rl hr = false ∨ gr'.feedstocks = [] := by
  intro gs
  induction gs with
  | nil => intro f g h; cases h
  | cons g0 t ih =>
      intro f g h
      simp only [pickGroup] at h
      by_cases hsel : groupSelectedB g0 cl rl hr = true
      · rw [if_pos hsel] at h
        cases hfs : g0.feedstocks with
        | nil =>
            rw [hfs] at h
            dsimp only at h
            obtain ⟨l₁, gr, l₂, hsplit, hname, hhead, hgsel, hearlier⟩ := ih f g h
            refine ⟨g0 :: l₁, gr, l₂, by simp [hsplit], hname, hhead, hgsel, ?_⟩
            intro gr' hg
            rcases List.mem_cons.mp hg with rfl | hg
            · exact Or.inr hfs
            · exact hearlier gr' hg
        | cons f0 fs =>
            rw [hfs] at h
            dsimp only at h
            obtain ⟨rfl, rfl⟩ : f0 = f ∧ g0.name = g := by
              cases h
              exact ⟨rfl, rfl⟩
            exact ⟨[], g0, t, rfl, rfl, by rw [hfs]; rfl, hsel, by simp⟩
      · rw [if_neg hsel] at h
        obtain ⟨l₁, gr, l₂, hsplit, hname, hhead, hgsel, hearlier⟩ := ih f g h
        refine ⟨g0 :: l₁, gr, l₂, by simp [hsplit], hname, hhead, hgsel, ?_⟩
        intro gr' hg
        rcases List.mem_cons.mp hg with rfl | hg
        · left
          cases hb : groupSelectedB gr' cl rl hr
          · rfl
          · exact absurd hb hsel
        · exact hearlier gr' hg

/-- C7 counterexample: the call `find_similar_feedstock("corn", "husk")`
resolves via `husk_types` (residue privilege), not via `corn_related` as
the claim requires of every corn call. -/
theorem c7_counterexample :
    findSimilarFeedstock "corn" (some "husk") = some ("Rice Husk", "husk_types") := by
  decide

/-- C7 amended: groups are evaluated in the declared order with the first
selected group (having feedstocks) winning, a group being selected exactly
by the crop-keyword match or the residue match restricted to the two
residue-privileged groups; a crop named "corn" never resolves via
`grain_straws` — it resolves via `corn_related` unless a supplied residue
selects `husk_types` or `coffee_related` first, and always does so when no
residue is supplied. -/
theorem c7_amended_resolver :
    (∀ cropName residueType f g,
      findSimilarFeedstock cropName residueType = some (f, g) →
      ∃ l₁ gr l₂,
        similarFeedstockGroups = l₁ ++ gr :: l₂ ∧ gr.name = g ∧
        gr.feedstocks.head? = some f ∧
        groupSelectedB gr (pyLowerStrip cropName) (residueLowerOf residueType)
          (hasResidueOf residueType) = true ∧
        ∀ gr' ∈ l₁,
          groupSelectedB gr' (pyLowerStrip cropName) (residueLowerOf residueType)
            (hasResidueOf residueType) = false ∨ gr'.feedstocks = []) ∧
    (∀ residueType, ∃ f g,
      findSimilarFeedstock "corn" residueType = some (f, g) ∧ g ≠ "grain_straws" ∧
      g ∈ ["husk_types", "coffee_related", "corn_related"]) ∧
    findSimilarFeedstock "corn" none = some ("Corn Straw", "corn_related") := by
  have hunfold : ∀ rt, findSimilarFeedstock "corn" rt =
      pickGroup "corn" (residueLowerOf rt) (hasResidueOf rt) similarFeedstockGroups := by
    intro rt
    have hcl : pyLowerStrip "corn" = "corn" := by decide
    rw [findSimilarFeedstock, if_neg (by decide : ¬("corn" = "")), hcl]
  refine ⟨?_, ?_, ?_⟩
  · intro cropName residueType f g h
    unfold findSimilarFeedstock at h
    split at h
    · cases h
    · exact pickGroup_eq_some similarFeedstockGroups f g h
  · intro rt
    rw [hunfold rt]
    have hc3 : groupSelectedB cornGroup "corn" (residueLowerOf rt) (hasResidueOf rt) = true := by
      have hcm : cropMatchB cornGroup "corn" = true := by decide
      simp [groupSelectedB, hcm]
    cases hs1 : groupSelectedB huskGroup "corn" (residueLowerOf rt) (hasResidueOf rt) with
    | true =>
        refine ⟨"Rice Husk", "husk_types", ?_, by decide, by decide⟩
        simp only [pickGroup, similarFeedstockGroups]
        rw [if_pos hs1]
        rfl
    | false =>
        cases hs2 : groupSelectedB coffeeGroup "corn" (residueLowerOf rt) (hasResidueOf rt) with
        | true =>
            refine ⟨"Coffee Silverskin", "coffee_related", ?_, by decide, by decide⟩
            simp only [pickGroup, similarFeedstockGroups]
            rw [if_neg (by simp [hs1]), if_pos hs2]
            rfl
        | false =>
            refine ⟨"Corn Straw", "corn_related", ?_, by decide, by decide⟩
            simp only [pickGroup, similarFeedstockGroups]
            rw [if_neg (by simp [hs1]), if_neg (by simp [hs2]), if_pos hc3]
            rfl
  · decide

/-- C7 amended, instantiated: with residue "straw" the corn call resolves
inside the three allowed groups. -/
theorem c7_witness :
    ∃ f g,
      findSimilarFeedstock "corn" (some "straw") = some (f, g) ∧ g ≠ "grain_straws" ∧
      g ∈ ["husk_types", "coffee_related", "corn_related"] :=
  c7_amended_resolver.2.1 (some "straw")

lemma dropWhile_nil_of_all {p : Char → Bool} {l : List Char}
    (h : ∀ c ∈ l, p c = true) : l.dropWhile p = [] := by
  induction l with
  | nil => rfl
  | cons a t ih =>
      simp only [List.dropWhile, h a (List.mem_cons_self _ _), if_true]
      exact ih (fun c hc => h c (List.mem_cons_of_mem _ hc))

lemma dropWhile_self_of_none {p : Char → Bool} {l : List Char}
    (h : ∀ c ∈ l, p c = false) : l.dropWhile p = l := by
  cases l with
  | nil => rfl
  | cons a t => simp [List.dropWhile, h a (List.mem_cons_self _ _)]

lemma pyStrip_nil_of_ws {l : List Char} (h : ∀ c ∈ l, pyIsSpace c = true) :
    pyStrip l = [] := by
  unfold pyStrip
  rw [dropWhile_nil_of_all h]
  rfl

lemma pyStrip_self_of_no_ws {l : List Char} (h : ∀ c ∈ l, pyIsSpace c = false) :
    pyStrip l = l := by
  unfold pyStrip
  rw [dropWhile_self_of_none h,
    dropWhile_self_of_none (fun c hc => h c (List.mem_reverse.mp hc)),
    List.reverse_reverse]

lemma toLower_eq_self_of_ws {c : Char} (h : pyIsSpace c = true) : c.toLower = c := by
  have hc : c = ' ' ∨ c = '\t' ∨ c = '\n' ∨ c = '\r' ∨ c = '\x0b' ∨ c = '\x0c' := by
    simpa [pyIsSpace, or_assoc] using h
  rcases hc with rfl | rfl | rfl | rfl | rfl | rfl <;> decide

lemma containsChar_iff {c : Char} {l : List Char} : l.contains c = true ↔ c ∈ l :=
  List.elem_iff

lemma contains_false_of_not_mem {c : Char} {l : List Char} (h : c ∉ l) :
    l.contains c = false := by
  cases hc : l.contains c with
  | false => rfl
  | true => exact absurd (containsChar_iff.mp hc) h

lemma splitOnChar_not_mem {sep : Char} :
    ∀ {l : List Char}, sep ∉ l → splitOnChar sep l = [l] := by
  intro l
  induction l with
  | nil => intro h; rfl
  | cons c t ih =>
      intro h
      have hc : ¬ (c == sep) = true := by
        simp only [beq_iff_eq]
        intro hh
        rw [hh] at h
        exact h (List.mem_cons_self _ _)
      simp only [splitOnChar]
      rw [if_neg hc, ih (fun hm => h (List.mem_cons_of_mem _ hm))]

lemma splitOnChar_append {sep : Char} :
    ∀ (l₁ l₂ : List Char), sep ∉ l₁ →
      splitOnChar sep (l₁ ++ sep :: l₂) = l₁ :: splitOnChar sep l₂ := by
  intro l₁
  induction l₁ with
  | nil =>
      intro l₂ h
      simp [splitOnChar]
  | cons c t ih =>
      intro l₂ h
      have hc : ¬ (c == sep) = true := by
        simp only [beq_iff_eq]
        intro hh
        rw [hh] at h
        exact h (List.mem_cons_self _ _)
      simp only [List.cons_append, splitOnChar, List.append_eq]
      rw [if_neg hc, ih l₂ (fun hm => h (List.mem_cons_of_mem _ hm))]

lemma not_empty_of_not_sentinel {s : String} (h : s ∉ sentinelStrs) : ¬ s = "" := by
  intro he
  exact h (by rw [he]; simp [sentinelStrs])

lemma cleanCell_eq_parse {s : String} (h : s ∉ sentinelStrs) :
    cleanCell s = parseValueStr s := by
  unfold cleanCell
  rw [if_neg h]

lemma parseValueStr_direct {s : String} (hne : ¬ s = "")
    (hcond : ((pyStrip s.data).contains '-' && !leadsWith ['-'] (pyStrip s.data)) = false) :
    parseValueStr s = pyNanToAbsent (pyFloatOfChars (pyStrip s.data)) := by
  unfold parseValueStr
  rw [if_neg hne]
  dsimp only
  rw [hcond]
  rfl

lemma parseValueStr_range {s : String} (hne : ¬ s = "")
    (hcond : ((pyStrip s.data).contains '-' && !leadsWith ['-'] (pyStrip s.data)) = true) :
    parseValueStr s =
      (match splitOnChar '-' (pyStrip s.data) with
       | p0 :: p1 :: _ => rangeMean (pyFloatOfChars p0) (pyFloatOfChars p1)
       | _ => none) := by
  unfold parseValueStr
  rw [if_neg hne]
  dsimp only
  rw [hcond]
  rfl

lemma cleanCell_none_of_lower {s : String} {w : List Char}
    (hw : lowerChars s.data = w)
    (hnws : ∀ d ∈ w, pyIsSpace d = false)
    (hnh : '-' ∉ w) (hwne : w ≠ [])
    (hlw : lowerChars w = w)
    (hval : pyNanToAbsent (pyFloatOfChars w) = none) :
    cleanCell s = none := by
  have hcws : ∀ c ∈ s.data, pyIsSpace c = false := by
    intro c hc
    cases hsp : pyIsSpace c with
    | false => rfl
    | true =>
        exfalso
        have hmw : c.toLower ∈ w := by
          rw [← hw]
          exact List.mem_map_of_mem _ hc
        rw [toLower_eq_self_of_ws hsp] at hmw
        have hcf := hnws c hmw
        rw [hsp] at hcf
        cases hcf
  have hstrip : pyStrip s.data = s.data := pyStrip_self_of_no_ws hcws
  have hsdh : '-' ∉ s.data := by
    intro hc
    have hmw : ('-' : Char).toLower ∈ w := by
      rw [← hw]
      exact List.mem_map_of_mem _ hc
    have hl : ('-' : Char).toLower = '-' := by decide
    rw [hl] at hmw
    exact hnh hmw
  by_cases hmem : s ∈ sentinelStrs
  · unfold cleanCell
    rw [if_pos hmem]
  · have hne := not_empty_of_not_sentinel hmem
    have hcond : ((pyStrip s.data).contains '-' && !leadsWith ['-'] (pyStrip s.data)) = false := by
      rw [hstrip, contains_false_of_not_mem hsdh]
      rfl
    rw [cleanCell_eq_parse hmem, parseValueStr_direct hne hcond, hstrip]
    have hfl : pyFloatOfChars s.data = pyFloatOfChars w := by
      unfold pyFloatOfChars
      dsimp only
      rw [hstrip, hw, pyStrip_self_of_no_ws hnws, hlw]
    rw [hfl]
    exact hval

/-- C6 counterexample: `"1e-5"` is directly parseable as a float
(1/100000) and is not a valid `"low-high"` range (its left part `"1e"`
does not parse), yet the cleaner returns absent — the direct float parse
the claim promises for "any other string" is never attempted. -/
theorem c6_counterexample :
    cleanCell "1e-5" = none ∧
    pyFloatOfChars "1e-5".data = some (some (1 / 100000)) ∧
    pyFloatOfChars "1e".data = none := by
  refine ⟨rfl, ?_, rfl⟩
  show some (some ((1 : ℚ) * (10 : ℚ) ^ (-5 : ℤ))) = some (some (1 / 100000))
  norm_num

/-- C6 amended: `"10-20"` parses to 15 and `"-5"` to −5; whitespace-only
and case-insensitive `nan`/`none`/`null` cells are absent; a string whose
stripped form is `low-high` with a single interior hyphen and float-parseable
parts yields the arithmetic mean; a string whose stripped form contains a
non-leading hyphen but fails range parsing yields absent (the direct float
parse is NOT attempted, unlike the original claim); and a string without a
non-leading hyphen is parsed directly as a float, with parse failures and
`NaN` becoming absent. -/
theorem c6_amended_parse :
    cleanCell "10-20" = some 15 ∧
    cleanCell "-5" = some (-5) ∧
    (∀ s : String, (∀ c ∈ s.data, pyIsSpace c = true) → cleanCell s = none) ∧
    (∀ s : String,
      (strToLower s = "nan" ∨ strToLower s = "none" ∨ strToLower s = "null") →
      cleanCell s = none) ∧
    (∀ (low high : List Char) (a b : ℚ),
      '-' ∉ low → '-' ∉ high → low ≠ [] →
      pyStrip (low ++ '-' :: high) = low ++ '-' :: high →
      pyFloatOfChars low = some (some a) → pyFloatOfChars high = some (some b) →
      cleanCell (String.mk (low ++ '-' :: high)) = some ((a + b) / 2)) ∧
    (∀ s : String,
      (pyStrip s.data).contains '-' = true →
      leadsWith ['-'] (pyStrip s.data) = false →
      (∀ p0 p1 rest, splitOnChar '-' (pyStrip s.data) = p0 :: p1 :: rest →
        rangeMean (pyFloatOfChars p0) (pyFloatOfChars p1) = none) →
      cleanCell s = none) ∧
    (∀ s : String, s ∉ sentinelStrs →
      ((pyStrip s.data).contains '-' = false ∨ leadsWith ['-'] (pyStrip s.data) = true) →
      cleanCell s = pyNanToAbsent (pyFloatOfChars (pyStrip s.data))) := by
  refine ⟨?_, ?_, ?_, ?_, ?_, ?_, ?_⟩
  · -- "10-20" → 15
    have h10 : pyFloatOfChars "10".data = some (some (10 : ℚ)) := by
      show some (some (((digitsToNat ['1', '0'] : ℕ) : ℚ) * (10 : ℚ) ^ (0 : ℤ))) = _
      norm_num [show digitsToNat ['1', '0'] = 10 from rfl]
    have h20 : pyFloatOfChars "20".data = some (some (20 : ℚ)) := by
      show some (some (((digitsToNat ['2', '0'] : ℕ) : ℚ) * (10 : ℚ) ^ (0 : ℤ))) = _
      norm_num [show digitsToNat ['2', '0'] = 20 from rfl]
    have h0 : cleanCell "10-20" =
        rangeMean (pyFloatOfChars "10".data) (pyFloatOfChars "20".data) := rfl
    rw [h0, h10, h20]
    show some (((10 : ℚ) + 20) / 2) = some 15
    norm_num
  · -- "-5" → -5
    have h5 : cleanCell "-5" =
        some (-(((digitsToNat ['5'] : ℕ) : ℚ) * (10 : ℚ) ^ (0 : ℤ))) := rfl
    rw [h5]
    norm_num [show digitsToNat ['5'] = 5 from rfl]
  · -- whitespace-only cells
    intro s hws
    by_cases hmem : s ∈ sentinelStrs
    · unfold cleanCell
      rw [if_pos hmem]
    · have hne := not_empty_of_not_sentinel hmem
      have hstrip : pyStrip s.data = [] := pyStrip_nil_of_ws hws
      have hcond : ((pyStrip s.data).contains '-' && !leadsWith ['-'] (pyStrip s.data)) = false := by
        rw [hstrip]
        rfl
      rw [cleanCell_eq_parse hmem, parseValueStr_direct hne hcond, hstrip]
      rfl
  · -- case-insensitive nan / none / null
    intro s h
    rcases h with h | h | h
    · exact cleanCell_none_of_lower (w := "nan".data) (congrArg String.data h)
        (by decide) (by decide) (by decide) (by decide) (by decide)
    · exact cleanCell_none_of_lower (w := "none".data) (congrArg String.data h)
        (by decide) (by decide) (by decide) (by decide) (by decide)
    · exact cleanCell_none_of_lower (w := "null".data) (congrArg String.data h)
        (by decide) (by decide) (by decide) (by decide) (by decide)
  · -- range mean
    intro low high a b hnl hnh hlne hstrip ha hb
    have hdata : (String.mk (low ++ '-' :: high)).data = low ++ '-' :: high := rfl
    have hmemh : '-' ∈ low ++ '-' :: high :=
      List.mem_append.mpr (Or.inr (List.mem_cons_self _ _))
    have hsent : String.mk (low ++ '-' :: high) ∉ sentinelStrs := by
      intro hmem
      simp only [sentinelStrs, List.mem_cons, List.not_mem_nil, or_false] at hmem
      rcases hmem with h | h | h | h | h <;>
        · have hd := congrArg String.data h
          rw [hdata] at hd
          rw [hd] at hmemh
          revert hmemh
          decide
    have hne := not_empty_of_not_sentinel hsent
    have hcont : (low ++ '-' :: high).contains '-' = true := containsChar_iff.mpr hmemh
    have hlead : leadsWith ['-'] (low ++ '-' :: high) = false := by
      cases low with
      | nil => exact absurd rfl hlne
      | cons c t =>
          have hcf : ('-' == c) = false := by
            cases hbc : ('-' == c) with
            | false => rfl
            | true =>
                have : '-' = c := by simpa using hbc
                rw [← this] at hnl
                exact absurd (List.mem_cons_self _ _) hnl
          show leadsWith ['-'] (c :: (t ++ '-' :: high)) = false
          simp [leadsWith, hcf]
    have hcond : ((pyStrip (String.mk (low ++ '-' :: high)).data).contains '-' &&
        !leadsWith ['-'] (pyStrip (String.mk (low ++ '-' :: high)).data)) = true := by
      rw [hdata, hstrip, hcont, hlead]
      rfl
    rw [cleanCell_eq_parse hsent, parseValueStr_range hne hcond, hdata, hstrip,
      splitOnChar_append low high hnl, splitOnChar_not_mem hnh]
    dsimp only
    rw [ha, hb]
    rfl
  · -- hyphenated but unparseable range
    intro s hcont hlead hfail
    by_cases hmem : s ∈ sentinelStrs
    · unfold cleanCell
      rw [if_pos hmem]
    · have hne := not_empty_of_not_sentinel hmem
      have hcond : ((pyStrip s.data).contains '-' && !leadsWith ['-'] (pyStrip s.data)) = true := by
        rw [hcont, hlead]
        rfl
      rw [cleanCell_eq_parse hmem, parseValueStr_range hne hcond]
      cases hsp : splitOnChar '-' (pyStrip s.data) with
      | nil => rfl
      | cons p0 tail =>
          cases tail with
          | nil => rfl
          | cons p1 rest => exact hfail p0 p1 rest hsp
  · -- direct float parse
    intro s hmem hd
    have hne := not_empty_of_not_sentinel hmem
    have hcond : ((pyStrip s.data).contains '-' && !leadsWith ['-'] (pyStrip s.data)) = false := by
      rcases hd with h | h
      · rw [h]
        rfl
      · rw [h]
        simp
    rw [cleanCell_eq_parse hmem, parseValueStr_direct hne hcond]

/-- C6 amended, instantiated at concrete cells of each kind. -/
theorem c6_witness :
    cleanCell "  " = none ∧
    cleanCell "NULL" = none ∧
    cleanCell "1-3" = some 2 ∧
    cleanCell "abc" = none := by
  obtain ⟨-, -, hws, hword, hmean, -, hdirect⟩ := c6_amended_parse
  refine ⟨hws "  " (by decide), hword "NULL" (Or.inr (Or.inr (by decide))), ?_, ?_⟩
  · have h1 : pyFloatOfChars ['1'] = some (some (1 : ℚ)) := by
      show some (some (((digitsToNat ['1'] : ℕ) : ℚ) * (10 : ℚ) ^ (0 : ℤ))) = _
      norm_num [show digitsToNat ['1'] = 1 from rfl]
    have h3 : pyFloatOfChars ['3'] = some (some (3 : ℚ)) := by
      show some (some (((digitsToNat ['3'] : ℕ) : ℚ) * (10 : ℚ) ^ (0 : ℤ))) = _
      norm_num [show digitsToNat ['3'] = 3 from rfl]
    have := hmean ['1'] ['3'] 1 3 (by decide) (by decide) (by decide) (by decide) h1 h3
    have h2 : ((1 : ℚ) + 3) / 2 = 2 := by norm_num
    rw [h2] at this
    exact this
  · have := hdirect "abc" (by decide) (Or.inl (by decide))
    rw [this]
    rfl

end Biochar
